import Mathlib

/-!
Shallow embedding of `Amazon_Bot/lambda_function.py`, an AWS Lex dialog
fulfillment handler for the "RecommendPortfolio" intent.

Modelling conventions:
* Python `dict` slot bags that may lack a key are association lists
  `List (String × Option String)`; the outer `Option` of a lookup is key
  presence, the inner `Option String` is the slot value (Python `None` = `none`).
* Python numeric parsing: `int(s)` / `float(s)` with `ValueError` caught and
  replaced by `float("nan")` become `Option Int` / `Option ℚ`, with `none`
  standing for NaN.  Every comparison against NaN is `False` in Python, so the
  comparison helpers return `false` on `none`.
* Uncaught Python exceptions (KeyError on a dict, the explicit
  `raise Exception` in `dispatch`) become the `Except PyErr` error monad.
* Python floats are modelled as exact rationals; the decimal literals handled
  here are far below any magnitude where rounding could change a comparison
  with 5000.  Exotic `float`/`int` literal forms (exponents, `inf`, grouping
  underscores, surrounding whitespace, non-ASCII digits) are not modelled.
-/

namespace AmazonBot

/-- Value of a list of decimal digit characters (most significant first). -/
def digitsFold (l : List Char) : Nat :=
  l.foldl (fun acc c => acc * 10 + (c.toNat - 48)) 0

/-- A non-empty all-digit character list parsed as a natural number;
`none` on anything else. -/
def decDigits? (l : List Char) : Option Nat :=
  if l.isEmpty then none
  else if l.all Char.isDigit then some (digitsFold l)
  else none

/-- `parse_int` from the source: `int(n)` with `ValueError` mapped to
`float("nan")`, here `none`.  Models `int()` on plain decimal literals with an
optional sign. -/
def parse_int (n : String) : Option Int :=
  match n.data with
  | '-' :: rest => (decDigits? rest).map (fun m => -(m : Int))
  | '+' :: rest => (decDigits? rest).map (fun m => (m : Int))
  | l => (decDigits? l).map (fun m => (m : Int))

/-- Split a character list at its first dot, `none` when there is no dot. -/
def findDot : List Char → Option (List Char × List Char)
  | [] => none
  | '.' :: rest => some ([], rest)
  | c :: rest => (findDot rest).map (fun p => (c :: p.1, p.2))

/-- `parse_float` from the source: `float(n)` with `ValueError` mapped to
`float("nan")`, here `none`.  Models `float()` on plain decimal literals
(`"123"`, `"123.45"`, `"123."`, `".45"`) with an optional sign. -/
def parse_float (n : String) : Option ℚ :=
  let mag : List Char → Option ℚ := fun l =>
    match findDot l with
    | none => (decDigits? l).map (fun m => (m : ℚ))
    | some (ip, fp) =>
      if fp.contains '.' then none
      else if ip.isEmpty && fp.isEmpty then none
      else if ip.all Char.isDigit && fp.all Char.isDigit then
        some ((digitsFold ip : ℚ) + (digitsFold fp : ℚ) / ((10 : ℚ) ^ fp.length))
      else none
  match n.data with
  | '-' :: rest => (mag rest).map (fun q => -q)
  | '+' :: rest => mag rest
  | l => mag l

/-- Python `x < b` where `x` may be NaN (`none`): NaN comparisons are `False`. -/
def nanLtInt (x : Option Int) (b : Int) : Bool :=
  match x with
  | some v => decide (v < b)
  | none => false

/-- Python `x > b` where `x` may be NaN (`none`). -/
def nanGtInt (x : Option Int) (b : Int) : Bool :=
  match x with
  | some v => decide (b < v)
  | none => false

/-- Python `x <= b` where `x` may be NaN (`none`). -/
def nanLeRat (x : Option ℚ) (b : ℚ) : Bool :=
  match x with
  | some v => decide (v ≤ b)
  | none => false

/-- Decimal digits of `r / d` with `r < d`, fuelled (terminates within the
fuel for every power-of-ten denominator arising from `parse_float`). -/
def fracDigits : Nat → Nat → Nat → String
  | 0, _, _ => ""
  | fuel + 1, r, d =>
    if r = 0 then ""
    else toString (r * 10 / d) ++ fracDigits fuel (r * 10 % d) d

/-- Model of Python `str`/f-string rendering of a float value (`none` = NaN).
`parse_float` only produces rationals with a power-of-ten denominator, for
which this prints the finite decimal expansion exactly as Python does
(`3000.0`, `30.5`, `nan`). -/
def floatRepr : Option ℚ → String
  | none => "nan"
  | some q =>
    let sign := if q.num < 0 then "-" else ""
    let n := q.num.natAbs
    let d := q.den
    if d = 1 then sign ++ toString n ++ ".0"
    else sign ++ toString (n / d) ++ "." ++ fracDigits 64 (n % d) d

/-- Lex `message` object: `{"contentType": "PlainText", "content": ...}`. -/
structure Message where
  contentType : String
  content : String
  deriving DecidableEq, Repr

/-- Result dict of `build_validation_result`.  The Python dict always carries
the `violatedSlot` key (its value may be `None`) and omits the `message` key
when the content is `None`; here `violatedSlot : Option String` is the key's
(possibly `None`) value and `message = none` is the omitted key. -/
structure ValidationResult where
  isValid : Bool
  violatedSlot : Option String
  message : Option Message
  deriving DecidableEq, Repr

/-- `build_validation_result` from the source. -/
def build_validation_result (is_valid : Bool) (violated_slot : Option String)
    (message_content : Option String) : ValidationResult :=
  match message_content with
  | none => ⟨is_valid, violated_slot, none⟩
  | some c => ⟨is_valid, violated_slot, some ⟨"PlainText", c⟩⟩

/-- Slot bag: Python dict from slot name to optional string value.  An absent
key (KeyError on access) is distinct from a key whose value is `None`. -/
abbrev Slots := List (String × Option String)

/-- First-match association-list lookup, i.e. Python `d[k]` returning `none`
where Python raises `KeyError`. -/
def lookupKey : Slots → String → Option (Option String)
  | [], _ => none
  | (k', v) :: rest, k => if k' = k then some v else lookupKey rest k

/-- Python `d[k] = v`: replace the first binding of `k`, or append one. -/
def setSlot : Slots → String → Option String → Slots
  | [], k, v => [(k, v)]
  | (k', v') :: rest, k, v =>
    if k' = k then (k, v) :: rest else (k', v') :: setSlot rest k v

/-- Opaque session attributes, passed through unchanged. -/
abbrev SessionAttrs := List (String × String)

/-- `intent_request["currentIntent"]`: intent name and slot bag. -/
structure CurrentIntent where
  name : String
  slots : Slots
  deriving DecidableEq, Repr

/-- The Lex event payload consumed by the handler. -/
structure IntentRequest where
  currentIntent : CurrentIntent
  invocationSource : String
  sessionAttributes : SessionAttrs
  deriving DecidableEq, Repr

/-- Uncaught Python exceptions terminating the invocation. -/
inductive PyErr where
  /-- `KeyError` from a dict lookup; the payload is the missing key
  (Python `repr` of a `None` key rendered as `"None"`). -/
  | keyError (key : String)
  /-- The explicit `raise Exception(...)` in `dispatch`. -/
  | unsupportedIntent (name : String)
  deriving DecidableEq, Repr

/-- The three response dict shapes built by the source. -/
inductive Response where
  | elicitSlot (sessionAttributes : SessionAttrs) (intentName : String)
      (slots : Slots) (slotToElicit : String) (message : Message)
  | delegate (sessionAttributes : SessionAttrs) (slots : Slots)
  | close (sessionAttributes : SessionAttrs) (fulfillmentState : String)
      (message : Message)
  deriving DecidableEq, Repr

/-- `get_slots` from the source. -/
def get_slots (intent_request : IntentRequest) : Slots :=
  intent_request.currentIntent.slots

/-- `elicit_slot` from the source. -/
def elicit_slot (session_attributes : SessionAttrs) (intent_name : String)
    (slots : Slots) (slot_to_elicit : String) (message : Message) : Response :=
  Response.elicitSlot session_attributes intent_name slots slot_to_elicit message

/-- `delegate` from the source. -/
def delegate (session_attributes : SessionAttrs) (slots : Slots) : Response :=
  Response.delegate session_attributes slots

/-- `close` from the source. -/
def close (session_attributes : SessionAttrs) (fulfillment_state : String)
    (message : Message) : Response :=
  Response.close session_attributes fulfillment_state message

/-- The empty-name violation message (triple-quoted string in the source). -/
def emptyNameMessage : String :=
  "\n                You provided an empty name...\n                Please try again.\n                "

/-- The too-young violation message. -/
def tooYoungMessage : String :=
  "\n                You have to be at least 1 year old to seek investment advise...\n                Please provide a different age.\n                "

/-- The too-old violation message. -/
def tooOldMessage : String :=
  "\n                This service is only valid for people less than 65 years old...\n                Sorry, but we cannot help you today.\n                "

/-- The low-amount violation message: an f-string embedding the parsed
(possibly NaN) float value. -/
def amountMessage (v : Option ℚ) : String :=
  "\n                You\x27ve got to be kidding me?!  I can\x27t provide advise for $ " ++ floatRepr v ++ "!\n                Please provide a high amount and try again.\n                "

/-- The unrecognized-risk-level violation message. -/
def riskMessage : String :=
  "I didn\x27t get that, please try again..."

/-- `valid_levels` from `validate_data`. -/
def valid_levels : List String :=
  ["Maximum", "Very High", "High", "Mid", "Low", "Very Low", "None"]

/-- Stage of `validate_data` after the first-name, age and amount checks:
the `if risk_level is not None` block and the final success return. -/
def validateRisk (risk_level : Option String) : ValidationResult :=
  match risk_level with
  | some s =>
    if s ∉ valid_levels then
      build_validation_result false (some "riskLevel") (some riskMessage)
    else build_validation_result true none none
  | none => build_validation_result true none none

/-- Stage of `validate_data` after the first-name and age checks:
the `if investment_amount is not None` block, then `validateRisk`. -/
def validateAmount (investment_amount risk_level : Option String) : ValidationResult :=
  match investment_amount with
  | some s =>
    let v := parse_float s
    if nanLeRat v 5000 then
      build_validation_result false (some "investmentAmount") (some (amountMessage v))
    else validateRisk risk_level
  | none => validateRisk risk_level

/-- Stage of `validate_data` after the first-name check:
the `if age is not None` block, then `validateAmount`. -/
def validateAge (age investment_amount risk_level : Option String) : ValidationResult :=
  match age with
  | some s =>
    let a := parse_int s
    if nanLtInt a 1 then
      build_validation_result false (some "age") (some tooYoungMessage)
    else if nanGtInt a 64 then
      build_validation_result false (some "age") (some tooOldMessage)
    else validateAmount investment_amount risk_level
  | none => validateAmount investment_amount risk_level

/-- `validate_data` from the source, sequentialized into stages: each early
`return` of the Python function is a terminal case of its stage.  The
`intent_request` parameter is unused, exactly as in the source. -/
def validate_data (first_name age investment_amount risk_level : Option String)
    (intent_request : IntentRequest) : ValidationResult :=
  match first_name with
  | some s =>
    if s.length == 0 then
      build_validation_result false (some "firstName") (some emptyNameMessage)
    else validateAge age investment_amount risk_level
  | none => validateAge age investment_amount risk_level

/-- Python `d[k]` on a slot bag: the value when the key is present, else an
uncaught `KeyError`. -/
def dictGet (d : Slots) (k : String) : Except PyErr (Option String) :=
  match lookupKey d k with
  | some v => Except.ok v
  | none => Except.error (PyErr.keyError k)

/-- `risk_rec_map` from `recommend_portfolio` (note: no `"Maximum"` entry). -/
def risk_rec_map : List (String × String) :=
  [("None", "100% bonds (AGG), 0% equities (SPY)"),
   ("Very Low", "80% bonds (AGG), 20% equities (SPY)"),
   ("Low", "60% bonds (AGG), 40% equities (SPY)"),
   ("Mid", "40% bonds (AGG), 60% equities (SPY)"),
   ("High", "20% bonds (AGG), 80% equities (SPY)"),
   ("Very High", "0% bonds (AGG), 100% equities (SPY)")]

/-- Lookup in `risk_rec_map` (first-match association-list lookup). -/
def recLookup : List (String × String) → String → Option String
  | [], _ => none
  | (k', v) :: rest, k => if k' = k then some v else recLookup rest k

/-- Python `str(x)` of an optional string: `None` renders as `"None"`
(the `.format` call renders `first_name` this way when it is null). -/
def pyStr : Option String → String
  | none => "None"
  | some s => s

/-- Content of the `close` message: the `.format` template of the source with
its two holes filled by `first_name` and `initial_recommendation`. -/
def closeContent (first_name : Option String) (initial_recommendation : String) : String :=
  pyStr first_name ++ " thank you for your information;\n            based on the risk level you defined, my recommendation is to choose an investment portfolio with " ++ initial_recommendation ++ "\n            "

/-- Body of `recommend_portfolio` after the four slot reads succeeded. -/
def recommendPortfolioBody (first_name age investment_amount risk_level : Option String)
    (intent_request : IntentRequest) : Except PyErr Response :=
  if intent_request.invocationSource == "DialogCodeHook" then
    let slots := get_slots intent_request
    let validation_result :=
      validate_data first_name age investment_amount risk_level intent_request
    if !validation_result.isValid then
      -- `slots[validation_result["violatedSlot"]] = None`, then an
      -- ElicitSlot response carrying `validation_result["message"]`.
      match validation_result.violatedSlot, validation_result.message with
      | some v, some m =>
        Except.ok (elicit_slot intent_request.sessionAttributes
          intent_request.currentIntent.name (setSlot slots v none) v m)
      | _, none =>
        -- Python: `validation_result["message"]` raises when the key is
        -- omitted.  Unreachable: every invalid result of `validate_data`
        -- carries a message.
        Except.error (PyErr.keyError "message")
      | none, some _ =>
        -- Unreachable: every invalid result of `validate_data` names a
        -- violated slot (Python would elicit a `None` slot here).
        Except.error (PyErr.keyError "violatedSlot")
    else
      let output_session_attributes := intent_request.sessionAttributes
      Except.ok (delegate output_session_attributes (get_slots intent_request))
  else
    -- Fulfillment: `risk_rec_map[risk_level]`; a missing key (including a
    -- null `risk_level`) is an uncaught KeyError.
    match risk_level with
    | none => Except.error (PyErr.keyError "None")
    | some s =>
      match recLookup risk_rec_map s with
      | none => Except.error (PyErr.keyError s)
      | some initial_recommendation =>
        Except.ok (close intent_request.sessionAttributes "Fulfilled"
          ⟨"PlainText", closeContent first_name initial_recommendation⟩)

/-- `recommend_portfolio` from the source: the four slot reads (each a dict
access that can raise `KeyError`), then the dialog/fulfillment body. -/
def recommend_portfolio (intent_request : IntentRequest) : Except PyErr Response :=
  match dictGet (get_slots intent_request) "firstName" with
  | Except.error e => Except.error e
  | Except.ok first_name =>
    match dictGet (get_slots intent_request) "age" with
    | Except.error e => Except.error e
    | Except.ok age =>
      match dictGet (get_slots intent_request) "investmentAmount" with
      | Except.error e => Except.error e
      | Except.ok investment_amount =>
        match dictGet (get_slots intent_request) "riskLevel" with
        | Except.error e => Except.error e
        | Except.ok risk_level =>
          recommendPortfolioBody first_name age investment_amount risk_level
            intent_request

/-- `dispatch` from the source: route on the intent name, raising for an
unsupported intent. -/
def dispatch (intent_request : IntentRequest) : Except PyErr Response :=
  if intent_request.currentIntent.name == "RecommendPortfolio" then
    recommend_portfolio intent_request
  else
    Except.error (PyErr.unsupportedIntent intent_request.currentIntent.name)

/-- `lambda_handler` from the source (the unused `context` argument kept). -/
def lambda_handler (event : IntentRequest) (context : Unit) : Except PyErr Response :=
  dispatch event

/-! ### Pass predicates for the individual validation rules

Each predicate says that the corresponding check of `validate_data` does not
fire on the given (optional) slot value; they are read off the source's
conditions verbatim. -/

/-- The first-name rule passes: absent, or present and non-empty. -/
def firstNamePasses : Option String → Bool
  | none => true
  | some s => !(s.length == 0)

/-- The age rule passes: absent, or parsed value neither `< 1` nor `> 64`
(NaN passes both comparisons vacuously). -/
def agePasses : Option String → Bool
  | none => true
  | some s => !(nanLtInt (parse_int s) 1) && !(nanGtInt (parse_int s) 64)

/-- The amount rule passes: absent, or parsed value not `≤ 5000`
(NaN passes vacuously). -/
def amountPasses : Option String → Bool
  | none => true
  | some s => !(nanLeRat (parse_float s) 5000)

/-- The risk-level rule passes: absent, or a member of `valid_levels`. -/
def riskLevelPasses : Option String → Bool
  | none => true
  | some s => decide (s ∈ valid_levels)

/-! ### Basic lemmas -/

@[simp] lemma build_validation_result_isValid (b : Bool) (vs : Option String)
    (mc : Option String) : (build_validation_result b vs mc).isValid = b := by
  cases mc <;> rfl

@[simp] lemma build_validation_result_violatedSlot (b : Bool) (vs : Option String)
    (mc : Option String) : (build_validation_result b vs mc).violatedSlot = vs := by
  cases mc <;> rfl

@[simp] lemma build_validation_result_message_none (b : Bool) (vs : Option String) :
    (build_validation_result b vs none).message = none := rfl

@[simp] lemma build_validation_result_message_some (b : Bool) (vs : Option String)
    (c : String) :
    (build_validation_result b vs (some c)).message = some ⟨"PlainText", c⟩ := rfl

lemma string_append_assoc (a b c : String) : (a ++ b) ++ c = a ++ (b ++ c) := by
  rcases a with ⟨la⟩; rcases b with ⟨lb⟩; rcases c with ⟨lc⟩
  show String.mk ((la ++ lb) ++ lc) = String.mk (la ++ (lb ++ lc))
  rw [List.append_assoc]

/-! ### Stage lemmas for `validate_data` -/

lemma validateRisk_pass {rl : Option String} (h : riskLevelPasses rl = true) :
    validateRisk rl = build_validation_result true none none := by
  cases rl with
  | none => rfl
  | some s =>
    simp only [riskLevelPasses, decide_eq_true_eq] at h
    simp [validateRisk, h]

lemma validateRisk_fail {rl : Option String} (h : riskLevelPasses rl = false) :
    validateRisk rl = build_validation_result false (some "riskLevel") (some riskMessage) := by
  cases rl with
  | none => exact Bool.noConfusion h
  | some s =>
    simp only [riskLevelPasses, decide_eq_false_iff_not] at h
    simp [validateRisk, h]

lemma validateAmount_pass {ia : Option String} (rl : Option String)
    (h : amountPasses ia = true) : validateAmount ia rl = validateRisk rl := by
  cases ia with
  | none => rfl
  | some s =>
    simp only [amountPasses, Bool.not_eq_true', Bool.not_eq_false] at h
    simp [validateAmount, h]

lemma validateAmount_fail {ia : Option String} (rl : Option String)
    (h : amountPasses ia = false) :
    ∃ s, ia = some s ∧
      validateAmount ia rl =
        build_validation_result false (some "investmentAmount")
          (some (amountMessage (parse_float s))) := by
  cases ia with
  | none => exact Bool.noConfusion h
  | some s =>
    simp only [amountPasses, Bool.not_eq_false'] at h
    exact ⟨s, rfl, by simp [validateAmount, h]⟩

lemma validateAge_pass {a : Option String} (ia rl : Option String)
    (h : agePasses a = true) : validateAge a ia rl = validateAmount ia rl := by
  cases a with
  | none => rfl
  | some s =>
    simp only [agePasses, Bool.and_eq_true, Bool.not_eq_true'] at h
    simp [validateAge, h.1, h.2]

lemma validateAge_fail {a : Option String} (ia rl : Option String)
    (h : agePasses a = false) :
    (validateAge a ia rl).isValid = false ∧
    (validateAge a ia rl).violatedSlot = some "age" ∧
    ((validateAge a ia rl).message = some ⟨"PlainText", tooYoungMessage⟩ ∨
     (validateAge a ia rl).message = some ⟨"PlainText", tooOldMessage⟩) := by
  cases a with
  | none => exact Bool.noConfusion h
  | some s =>
    cases hlt : nanLtInt (parse_int s) 1 with
    | true => refine ⟨?_, ?_, Or.inl ?_⟩ <;> simp [validateAge, hlt]
    | false =>
      cases hgt : nanGtInt (parse_int s) 64 with
      | true => refine ⟨?_, ?_, Or.inr ?_⟩ <;> simp [validateAge, hlt, hgt]
      | false => exact absurd h (by simp [agePasses, hlt, hgt])

lemma validate_data_pass {fn : Option String} (a ia rl : Option String)
    (r : IntentRequest) (h : firstNamePasses fn = true) :
    validate_data fn a ia rl r = validateAge a ia rl := by
  cases fn with
  | none => rfl
  | some s =>
    simp only [firstNamePasses, Bool.not_eq_true'] at h
    simp [validate_data, h]

lemma validate_data_fail {fn : Option String} (a ia rl : Option String)
    (r : IntentRequest) (h : firstNamePasses fn = false) :
    validate_data fn a ia rl r =
      build_validation_result false (some "firstName") (some emptyNameMessage) := by
  cases fn with
  | none => exact Bool.noConfusion h
  | some s =>
    simp only [firstNamePasses, Bool.not_eq_false'] at h
    simp [validate_data, h]

/-- `validate_data` is valid exactly when all four rules pass. -/
lemma validate_data_isValid (fn a ia rl : Option String) (r : IntentRequest) :
    (validate_data fn a ia rl r).isValid =
      (firstNamePasses fn && agePasses a && amountPasses ia && riskLevelPasses rl) := by
  cases hfn : firstNamePasses fn with
  | false => rw [validate_data_fail a ia rl r hfn]; simp
  | true =>
    rw [validate_data_pass a ia rl r hfn]
    cases ha : agePasses a with
    | false =>
      obtain ⟨h1, -, -⟩ := validateAge_fail ia rl ha
      rw [h1]; simp
    | true =>
      rw [validateAge_pass ia rl ha]
      cases hia : amountPasses ia with
      | false =>
        obtain ⟨s, -, heq⟩ := validateAmount_fail rl hia
        rw [heq]; simp
      | true =>
        rw [validateAmount_pass rl hia]
        cases hrl : riskLevelPasses rl with
        | false => rw [validateRisk_fail hrl]; simp
        | true => rw [validateRisk_pass hrl]; simp

/-- Every result of `validate_data` is either the success triple or a failure
carrying both a violated slot and a message. -/
lemma validate_data_shape (fn a ia rl : Option String) (r : IntentRequest) :
    validate_data fn a ia rl r = build_validation_result true none none ∨
    ∃ v c, validate_data fn a ia rl r =
      build_validation_result false (some v) (some c) := by
  cases hfn : firstNamePasses fn with
  | false => exact Or.inr ⟨_, _, validate_data_fail a ia rl r hfn⟩
  | true =>
    rw [validate_data_pass a ia rl r hfn]
    cases ha : agePasses a with
    | false =>
      cases a with
      | none => exact Bool.noConfusion ha
      | some s =>
        cases hlt : nanLtInt (parse_int s) 1 with
        | true =>
          exact Or.inr ⟨"age", tooYoungMessage, by simp [validateAge, hlt]⟩
        | false =>
          cases hgt : nanGtInt (parse_int s) 64 with
          | true =>
            exact Or.inr ⟨"age", tooOldMessage, by simp [validateAge, hlt, hgt]⟩
          | false => exact absurd ha (by simp [agePasses, hlt, hgt])
    | true =>
      rw [validateAge_pass ia rl ha]
      cases hia : amountPasses ia with
      | false =>
        obtain ⟨s, -, heq⟩ := validateAmount_fail rl hia
        exact Or.inr ⟨_, _, heq⟩
      | true =>
        rw [validateAmount_pass rl hia]
        cases hrl : riskLevelPasses rl with
        | false => exact Or.inr ⟨_, _, validateRisk_fail hrl⟩
        | true => exact Or.inl (validateRisk_pass hrl)

/-- An invalid result of `validate_data` always carries a violated slot and a
message. -/
lemma validate_data_invalid_shape {fn a ia rl : Option String} {r : IntentRequest}
    (h : (validate_data fn a ia rl r).isValid = false) :
    ∃ v m, (validate_data fn a ia rl r).violatedSlot = some v ∧
      (validate_data fn a ia rl r).message = some m := by
  rcases validate_data_shape fn a ia rl r with heq | ⟨v, c, heq⟩
  · rw [heq] at h; simp at h
  · rw [heq]; exact ⟨v, ⟨"PlainText", c⟩, by simp, by simp⟩

/-! ### Slot-bag update lemmas -/

lemma lookupKey_setSlot_self (d : Slots) (k : String) (v : Option String) :
    lookupKey (setSlot d k v) k = some v := by
  induction d with
  | nil => simp [setSlot, lookupKey]
  | cons p rest ih =>
    by_cases h : p.1 = k
    · simp [setSlot, lookupKey, h]
    · simp [setSlot, lookupKey, h, ih]

lemma lookupKey_setSlot_ne (d : Slots) (k : String) (v : Option String)
    {j : String} (h : j ≠ k) :
    lookupKey (setSlot d k v) j = lookupKey d j := by
  have hkj : ¬k = j := fun he => h he.symm
  induction d with
  | nil => simp [setSlot, lookupKey, hkj]
  | cons p rest ih =>
    by_cases hp : p.1 = k
    · subst hp
      simp [setSlot, lookupKey, hkj]
    · simp [setSlot, lookupKey, hp, ih]

/-! ### Branch lemmas for `recommend_portfolio` -/

/-- When all four slot keys are present, the handler reduces to its body. -/
lemma recommend_portfolio_eq {r : IntentRequest} {fn a ia rl : Option String}
    (h1 : lookupKey (get_slots r) "firstName" = some fn)
    (h2 : lookupKey (get_slots r) "age" = some a)
    (h3 : lookupKey (get_slots r) "investmentAmount" = some ia)
    (h4 : lookupKey (get_slots r) "riskLevel" = some rl) :
    recommend_portfolio r = recommendPortfolioBody fn a ia rl r := by
  simp [recommend_portfolio, dictGet, h1, h2, h3, h4]

/-- Dialog phase, valid slots: delegate with the unchanged slot bag. -/
lemma body_dialog_valid {r : IntentRequest} {fn a ia rl : Option String}
    (hsrc : r.invocationSource = "DialogCodeHook")
    (hval : (validate_data fn a ia rl r).isValid = true) :
    recommendPortfolioBody fn a ia rl r =
      Except.ok (delegate r.sessionAttributes (get_slots r)) := by
  simp [recommendPortfolioBody, hsrc, hval]

/-- Dialog phase, invalid slots: elicit the violated slot, cleared. -/
lemma body_dialog_invalid {r : IntentRequest} {fn a ia rl : Option String}
    {v : String} {m : Message}
    (hsrc : r.invocationSource = "DialogCodeHook")
    (hval : (validate_data fn a ia rl r).isValid = false)
    (hv : (validate_data fn a ia rl r).violatedSlot = some v)
    (hm : (validate_data fn a ia rl r).message = some m) :
    recommendPortfolioBody fn a ia rl r =
      Except.ok (elicit_slot r.sessionAttributes r.currentIntent.name
        (setSlot (get_slots r) v none) v m) := by
  simp [recommendPortfolioBody, hsrc, hval, hv, hm]

/-- Fulfillment phase with a mapped risk level: close with the composed
message. -/
lemma body_fulfillment_hit {r : IntentRequest} {fn a ia : Option String}
    {s rec0 : String}
    (hsrc : r.invocationSource = "FulfillmentCodeHook")
    (hmap : recLookup risk_rec_map s = some rec0) :
    recommendPortfolioBody fn a ia (some s) r =
      Except.ok (close r.sessionAttributes "Fulfilled"
        ⟨"PlainText", closeContent fn rec0⟩) := by
  simp [recommendPortfolioBody, hsrc, hmap]

/-- Fulfillment phase with an unmapped risk level: uncaught `KeyError`. -/
lemma body_fulfillment_miss {r : IntentRequest} {fn a ia : Option String}
    {s : String}
    (hsrc : r.invocationSource = "FulfillmentCodeHook")
    (hmap : recLookup risk_rec_map s = none) :
    recommendPortfolioBody fn a ia (some s) r =
      Except.error (PyErr.keyError s) := by
  simp [recommendPortfolioBody, hsrc, hmap]

/-- A concrete request builder used to instantiate theorems on explicit
inputs. -/
def exampleRequest (slots : Slots) (source : String) : IntentRequest :=
  ⟨⟨"RecommendPortfolio", slots⟩, source, [("sess", "attr")]⟩

/-! ### Claims -/

/-- C1: the risk level "Maximum" is accepted by the validator (it is in the
7-value valid set), yet it has no entry in `risk_rec_map`; hence every
request with invocationSource = FulfillmentCodeHook and riskLevel "Maximum"
terminates with an uncaught lookup error instead of a Close response. -/
theorem maximum_risk_fulfillment_key_error (r : IntentRequest)
    (fn a ia : Option String)
    (h1 : lookupKey (get_slots r) "firstName" = some fn)
    (h2 : lookupKey (get_slots r) "age" = some a)
    (h3 : lookupKey (get_slots r) "investmentAmount" = some ia)
    (h4 : lookupKey (get_slots r) "riskLevel" = some (some "Maximum"))
    (hsrc : r.invocationSource = "FulfillmentCodeHook") :
    (validate_data none none none (some "Maximum") r).isValid = true ∧
    recommend_portfolio r = Except.error (PyErr.keyError "Maximum") := by
  constructor
  · rfl
  · rw [recommend_portfolio_eq h1 h2 h3 h4]
    exact body_fulfillment_miss hsrc rfl

theorem maximum_risk_fulfillment_key_error_witness :
    (validate_data none none none (some "Maximum")
      (exampleRequest
        [("firstName", some "Jo"), ("age", some "30"),
         ("investmentAmount", some "10000"), ("riskLevel", some "Maximum")]
        "FulfillmentCodeHook")).isValid = true ∧
    recommend_portfolio
      (exampleRequest
        [("firstName", some "Jo"), ("age", some "30"),
         ("investmentAmount", some "10000"), ("riskLevel", some "Maximum")]
        "FulfillmentCodeHook") = Except.error (PyErr.keyError "Maximum") :=
  maximum_risk_fulfillment_key_error _ (some "Jo") (some "30") (some "10000")
    rfl rfl rfl rfl rfl

/-- C2: a present age or investmentAmount string that does not parse as a
number becomes NaN, which fails every numeric comparison; with the other
slots absent or valid, `validate_data` returns a valid result — malformed
numeric input is silently accepted. -/
theorem malformed_numeric_silently_valid (fn a ia rl : Option String)
    (r : IntentRequest) (s t : String)
    (hs : parse_int s = none) (ht : parse_float t = none)
    (hfn : firstNamePasses fn = true) (ha : agePasses a = true)
    (hia : amountPasses ia = true) (hrl : riskLevelPasses rl = true) :
    (validate_data fn (some s) ia rl r).isValid = true ∧
    (validate_data fn a (some t) rl r).isValid = true := by
  constructor
  · rw [validate_data_isValid]
    simp [hfn, hia, hrl, agePasses, hs, nanLtInt, nanGtInt]
  · rw [validate_data_isValid]
    simp [hfn, ha, hrl, amountPasses, ht, nanLeRat]

theorem malformed_numeric_silently_valid_witness :
    (validate_data none (some "30.5") none none
      (exampleRequest [] "DialogCodeHook")).isValid = true ∧
    (validate_data none none (some "abc") none
      (exampleRequest [] "DialogCodeHook")).isValid = true :=
  malformed_numeric_silently_valid none none none none
    (exampleRequest [] "DialogCodeHook") "30.5" "abc" rfl rfl rfl rfl rfl rfl

/-- C3: `validate_data` evaluates the rules first-violation-wins in the
fixed order firstName, age, investmentAmount, riskLevel; in particular
firstName = "" together with age = "200" yields violatedSlot "firstName". -/
theorem validation_first_violation_order (fn a ia rl : Option String)
    (r : IntentRequest) :
    (firstNamePasses fn = false →
      (validate_data fn a ia rl r).violatedSlot = some "firstName") ∧
    (firstNamePasses fn = true → agePasses a = false →
      (validate_data fn a ia rl r).violatedSlot = some "age") ∧
    (firstNamePasses fn = true → agePasses a = true → amountPasses ia = false →
      (validate_data fn a ia rl r).violatedSlot = some "investmentAmount") ∧
    (firstNamePasses fn = true → agePasses a = true → amountPasses ia = true →
      riskLevelPasses rl = false →
      (validate_data fn a ia rl r).violatedSlot = some "riskLevel") ∧
    (validate_data (some "") (some "200") ia rl r).violatedSlot =
      some "firstName" := by
  refine ⟨?_, ?_, ?_, ?_, ?_⟩
  · intro h; rw [validate_data_fail a ia rl r h]; simp
  · intro hfn ha
    rw [validate_data_pass a ia rl r hfn]
    exact (validateAge_fail ia rl ha).2.1
  · intro hfn ha hia
    rw [validate_data_pass a ia rl r hfn, validateAge_pass ia rl ha]
    obtain ⟨s, -, heq⟩ := validateAmount_fail rl hia
    rw [heq]; simp
  · intro hfn ha hia hrl
    rw [validate_data_pass a ia rl r hfn, validateAge_pass ia rl ha,
      validateAmount_pass rl hia, validateRisk_fail hrl]
    simp
  · rw [validate_data_fail (some "200") ia rl r
      (show firstNamePasses (some "") = false from rfl)]
    simp

theorem validation_first_violation_order_witness :
    (validate_data (some "") (some "200") none none
      (exampleRequest [] "DialogCodeHook")).violatedSlot = some "firstName" :=
  (validation_first_violation_order (some "") (some "200") none none
    (exampleRequest [] "DialogCodeHook")).1 rfl

/-- C4: every result of `validate_data` satisfies the ValidationResult
invariant: violatedSlot and message are both present or both absent, and
both are absent whenever isValid is true. -/
theorem validation_result_invariant (fn a ia rl : Option String)
    (r : IntentRequest) :
    ((validate_data fn a ia rl r).violatedSlot.isSome ↔
      (validate_data fn a ia rl r).message.isSome) ∧
    ((validate_data fn a ia rl r).isValid = true →
      (validate_data fn a ia rl r).violatedSlot = none ∧
      (validate_data fn a ia rl r).message = none) := by
  rcases validate_data_shape fn a ia rl r with heq | ⟨v, c, heq⟩ <;> rw [heq]
  · exact ⟨by simp, fun _ => ⟨by simp, by simp⟩⟩
  · refine ⟨by simp, fun hv => ?_⟩
    simp at hv

theorem validation_result_invariant_witness :
    (validate_data none none none none
      (exampleRequest [] "DialogCodeHook")).violatedSlot = none ∧
    (validate_data none none none none
      (exampleRequest [] "DialogCodeHook")).message = none :=
  (validation_result_invariant none none none none
    (exampleRequest [] "DialogCodeHook")).2 rfl

/-- Slot bag of the C5 scenario: all slots filled, investmentAmount 3000. -/
def elicitExampleSlots : Slots :=
  [("firstName", some "Jo"), ("age", some "30"),
   ("investmentAmount", some "3000"), ("riskLevel", some "Mid")]

/-- C5: a DialogCodeHook request failing validation yields an ElicitSlot
response whose slotToElicit is the violated slot, whose message is the
violation message, and whose slot bag equals the request's except that the
violated slot is cleared; session attributes are unchanged. -/
theorem dialog_invalid_elicits_cleared_slot (r : IntentRequest)
    (fn a ia rl : Option String)
    (h1 : lookupKey (get_slots r) "firstName" = some fn)
    (h2 : lookupKey (get_slots r) "age" = some a)
    (h3 : lookupKey (get_slots r) "investmentAmount" = some ia)
    (h4 : lookupKey (get_slots r) "riskLevel" = some rl)
    (hsrc : r.invocationSource = "DialogCodeHook")
    (hval : (validate_data fn a ia rl r).isValid = false) :
    ∃ v m,
      (validate_data fn a ia rl r).violatedSlot = some v ∧
      (validate_data fn a ia rl r).message = some m ∧
      recommend_portfolio r =
        Except.ok (elicit_slot r.sessionAttributes r.currentIntent.name
          (setSlot (get_slots r) v none) v m) ∧
      lookupKey (setSlot (get_slots r) v none) v = some none ∧
      (∀ k, k ≠ v → lookupKey (setSlot (get_slots r) v none) k =
        lookupKey (get_slots r) k) := by
  obtain ⟨v, m, hv, hm⟩ := validate_data_invalid_shape hval
  refine ⟨v, m, hv, hm, ?_, lookupKey_setSlot_self _ _ _,
    fun k hk => lookupKey_setSlot_ne _ _ _ hk⟩
  rw [recommend_portfolio_eq h1 h2 h3 h4]
  exact body_dialog_invalid hsrc hval hv hm

theorem dialog_invalid_elicits_cleared_slot_witness :
    ∃ v m,
      (validate_data (some "Jo") (some "30") (some "3000") (some "Mid")
        (exampleRequest elicitExampleSlots "DialogCodeHook")).violatedSlot =
          some v ∧
      (validate_data (some "Jo") (some "30") (some "3000") (some "Mid")
        (exampleRequest elicitExampleSlots "DialogCodeHook")).message = some m ∧
      recommend_portfolio (exampleRequest elicitExampleSlots "DialogCodeHook") =
        Except.ok (elicit_slot
          (exampleRequest elicitExampleSlots "DialogCodeHook").sessionAttributes
          (exampleRequest elicitExampleSlots "DialogCodeHook").currentIntent.name
          (setSlot (get_slots (exampleRequest elicitExampleSlots "DialogCodeHook"))
            v none) v m) ∧
      lookupKey (setSlot
        (get_slots (exampleRequest elicitExampleSlots "DialogCodeHook")) v none) v =
          some none ∧
      (∀ k, k ≠ v → lookupKey (setSlot
        (get_slots (exampleRequest elicitExampleSlots "DialogCodeHook")) v none) k =
          lookupKey (get_slots (exampleRequest elicitExampleSlots "DialogCodeHook")) k) :=
  dialog_invalid_elicits_cleared_slot
    (exampleRequest elicitExampleSlots "DialogCodeHook")
    (some "Jo") (some "30") (some "3000") (some "Mid")
    rfl rfl rfl rfl rfl (by decide)

/-- C6: a FulfillmentCodeHook request whose riskLevel is in `risk_rec_map`
gets a Close response with fulfillmentState "Fulfilled" and a PlainText
message containing the firstName and the recommendation text; no validation
is run in this phase (the slot values are entirely unconstrained). -/
theorem fulfillment_close_message (r : IntentRequest) (nm : String)
    (a ia : Option String) (s rec0 : String)
    (h1 : lookupKey (get_slots r) "firstName" = some (some nm))
    (h2 : lookupKey (get_slots r) "age" = some a)
    (h3 : lookupKey (get_slots r) "investmentAmount" = some ia)
    (h4 : lookupKey (get_slots r) "riskLevel" = some (some s))
    (hsrc : r.invocationSource = "FulfillmentCodeHook")
    (hmap : recLookup risk_rec_map s = some rec0) :
    recommend_portfolio r =
      Except.ok (close r.sessionAttributes "Fulfilled"
        ⟨"PlainText", closeContent (some nm) rec0⟩) ∧
    (∃ u, closeContent (some nm) rec0 = nm ++ u) ∧
    (∃ u w, closeContent (some nm) rec0 = u ++ (rec0 ++ w)) := by
  refine ⟨?_, ?_, ?_⟩
  · rw [recommend_portfolio_eq h1 h2 h3 h4]
    exact body_fulfillment_hit hsrc hmap
  · refine ⟨" thank you for your information;\n            based on the risk level you defined, my recommendation is to choose an investment portfolio with " ++ (rec0 ++ "\n            "), ?_⟩
    unfold closeContent pyStr
    rw [string_append_assoc, string_append_assoc]
  · refine ⟨nm ++ " thank you for your information;\n            based on the risk level you defined, my recommendation is to choose an investment portfolio with ", "\n            ", ?_⟩
    unfold closeContent pyStr
    rw [string_append_assoc]

theorem fulfillment_close_message_witness :
    recommend_portfolio
      (exampleRequest
        [("firstName", some "Jo"), ("age", some "30"),
         ("investmentAmount", some "10000"), ("riskLevel", some "High")]
        "FulfillmentCodeHook") =
      Except.ok (close
        (exampleRequest
          [("firstName", some "Jo"), ("age", some "30"),
           ("investmentAmount", some "10000"), ("riskLevel", some "High")]
          "FulfillmentCodeHook").sessionAttributes "Fulfilled"
        ⟨"PlainText",
          closeContent (some "Jo") "20% bonds (AGG), 80% equities (SPY)"⟩) ∧
    (∃ u, closeContent (some "Jo") "20% bonds (AGG), 80% equities (SPY)" =
      "Jo" ++ u) ∧
    (∃ u w, closeContent (some "Jo") "20% bonds (AGG), 80% equities (SPY)" =
      u ++ ("20% bonds (AGG), 80% equities (SPY)" ++ w)) :=
  fulfillment_close_message
    (exampleRequest
      [("firstName", some "Jo"), ("age", some "30"),
       ("investmentAmount", some "10000"), ("riskLevel", some "High")]
      "FulfillmentCodeHook")
    "Jo" (some "30") (some "10000") "High" "20% bonds (AGG), 80% equities (SPY)"
    rfl rfl rfl rfl rfl rfl

/-- C7: a DialogCodeHook request whose slots pass validation yields a
Delegate response carrying the request's slot bag unmodified and the
request's session attributes unchanged. -/
theorem dialog_valid_delegates_unchanged (r : IntentRequest)
    (fn a ia rl : Option String)
    (h1 : lookupKey (get_slots r) "firstName" = some fn)
    (h2 : lookupKey (get_slots r) "age" = some a)
    (h3 : lookupKey (get_slots r) "investmentAmount" = some ia)
    (h4 : lookupKey (get_slots r) "riskLevel" = some rl)
    (hsrc : r.invocationSource = "DialogCodeHook")
    (hval : (validate_data fn a ia rl r).isValid = true) :
    recommend_portfolio r =
      Except.ok (delegate r.sessionAttributes (get_slots r)) := by
  rw [recommend_portfolio_eq h1 h2 h3 h4]
  exact body_dialog_valid hsrc hval

theorem dialog_valid_delegates_unchanged_witness :
    recommend_portfolio
      (exampleRequest
        [("firstName", some "Jo"), ("age", some "30"),
         ("investmentAmount", some "10000"), ("riskLevel", some "Mid")]
        "DialogCodeHook") =
      Except.ok (delegate
        (exampleRequest
          [("firstName", some "Jo"), ("age", some "30"),
           ("investmentAmount", some "10000"), ("riskLevel", some "Mid")]
          "DialogCodeHook").sessionAttributes
        (get_slots (exampleRequest
          [("firstName", some "Jo"), ("age", some "30"),
           ("investmentAmount", some "10000"), ("riskLevel", some "Mid")]
          "DialogCodeHook"))) :=
  dialog_valid_delegates_unchanged
    (exampleRequest
      [("firstName", some "Jo"), ("age", some "30"),
       ("investmentAmount", some "10000"), ("riskLevel", some "Mid")]
      "DialogCodeHook")
    (some "Jo") (some "30") (some "10000") (some "Mid")
    rfl rfl rfl rfl rfl (by decide)

/-- C8: for a present age string parsing to the integer n (other slots
absent or valid), `validate_data` is valid iff 1 ≤ n ≤ 64, and out-of-range
values are reported with violatedSlot "age" — the boundary is [1,64]
inclusive at both ends. -/
theorem age_boundary_one_to_sixtyfour (fn ia rl : Option String)
    (r : IntentRequest) (s : String) (n : ℤ) (hs : parse_int s = some n)
    (hfn : firstNamePasses fn = true) (hia : amountPasses ia = true)
    (hrl : riskLevelPasses rl = true) :
    ((validate_data fn (some s) ia rl r).isValid = true ↔ 1 ≤ n ∧ n ≤ 64) ∧
    (n < 1 ∨ 64 < n →
      (validate_data fn (some s) ia rl r).violatedSlot = some "age") := by
  constructor
  · rw [validate_data_isValid, hfn, hia, hrl]
    simp only [Bool.true_and, Bool.and_true, agePasses, hs, nanLtInt,
      nanGtInt, Bool.and_eq_true, Bool.not_eq_true', decide_eq_false_iff_not]
    omega
  · intro hout
    rw [validate_data_pass (some s) ia rl r hfn]
    have ha : agePasses (some s) = false := by
      simp only [agePasses, hs, nanLtInt, nanGtInt, Bool.and_eq_false_iff,
        Bool.not_eq_false', decide_eq_true_eq]
      omega
    exact (validateAge_fail ia rl ha).2.1

theorem age_boundary_one_to_sixtyfour_witness :
    ((validate_data none (some "64") none none
      (exampleRequest [] "DialogCodeHook")).isValid = true ↔
        1 ≤ (64 : ℤ) ∧ (64 : ℤ) ≤ 64) ∧
    ((64 : ℤ) < 1 ∨ (64 : ℤ) < 64 →
      (validate_data none (some "64") none none
        (exampleRequest [] "DialogCodeHook")).violatedSlot = some "age") :=
  age_boundary_one_to_sixtyfour none none none
    (exampleRequest [] "DialogCodeHook") "64" 64 rfl rfl rfl rfl

/-- C9: for a present riskLevel string (other slots absent or valid),
`validate_data` is valid iff the string is one of the seven values of
`valid_levels` by case-sensitive exact match; otherwise it reports
violatedSlot "riskLevel". -/
theorem risk_level_seven_values (fn a ia : Option String)
    (r : IntentRequest) (s : String)
    (hfn : firstNamePasses fn = true) (ha : agePasses a = true)
    (hia : amountPasses ia = true) :
    ((validate_data fn a ia (some s) r).isValid = true ↔ s ∈ valid_levels) ∧
    (s ∉ valid_levels →
      (validate_data fn a ia (some s) r).violatedSlot = some "riskLevel") := by
  constructor
  · rw [validate_data_isValid, hfn, ha, hia]
    simp [riskLevelPasses]
  · intro hnot
    rw [validate_data_pass a ia (some s) r hfn, validateAge_pass ia (some s) ha,
      validateAmount_pass (some s) hia,
      validateRisk_fail (by simp [riskLevelPasses, hnot])]
    simp

theorem risk_level_seven_values_witness :
    ((validate_data none none none (some "medium")
      (exampleRequest [] "DialogCodeHook")).isValid = true ↔
        "medium" ∈ valid_levels) ∧
    ("medium" ∉ valid_levels →
      (validate_data none none none (some "medium")
        (exampleRequest [] "DialogCodeHook")).violatedSlot =
          some "riskLevel") :=
  risk_level_seven_values none none none
    (exampleRequest [] "DialogCodeHook") "medium" rfl rfl rfl

/-- C10: `recommend_portfolio` requires all four slot keys to be present in
the slot bag; if any of them is absent, the handler terminates with an
uncaught key-lookup error (for the first absent key, in read order) rather
than treating the missing key as an absent slot. -/
theorem missing_slot_key_raises (r : IntentRequest) (k : String)
    (hk : k ∈ ["firstName", "age", "investmentAmount", "riskLevel"])
    (hmiss : lookupKey (get_slots r) k = none) :
    ∃ j, j ∈ ["firstName", "age", "investmentAmount", "riskLevel"] ∧
      lookupKey (get_slots r) j = none ∧
      recommend_portfolio r = Except.error (PyErr.keyError j) := by
  cases hfn : lookupKey (get_slots r) "firstName" with
  | none =>
    exact ⟨"firstName", by simp, hfn,
      by simp [recommend_portfolio, dictGet, hfn]⟩
  | some fn =>
    cases hage : lookupKey (get_slots r) "age" with
    | none =>
      exact ⟨"age", by simp, hage,
        by simp [recommend_portfolio, dictGet, hfn, hage]⟩
    | some a =>
      cases hia : lookupKey (get_slots r) "investmentAmount" with
      | none =>
        exact ⟨"investmentAmount", by simp, hia,
          by simp [recommend_portfolio, dictGet, hfn, hage, hia]⟩
      | some ia =>
        cases hrl : lookupKey (get_slots r) "riskLevel" with
        | none =>
          exact ⟨"riskLevel", by simp, hrl,
            by simp [recommend_portfolio, dictGet, hfn, hage, hia, hrl]⟩
        | some rl =>
          exfalso
          simp only [List.mem_cons, List.not_mem_nil, or_false] at hk
          rcases hk with rfl | rfl | rfl | rfl
          · rw [hfn] at hmiss; exact Option.noConfusion hmiss
          · rw [hage] at hmiss; exact Option.noConfusion hmiss
          · rw [hia] at hmiss; exact Option.noConfusion hmiss
          · rw [hrl] at hmiss; exact Option.noConfusion hmiss

theorem missing_slot_key_raises_witness :
    ∃ j, j ∈ ["firstName", "age", "investmentAmount", "riskLevel"] ∧
      lookupKey (get_slots (exampleRequest [("firstName", some "Jo")]
        "DialogCodeHook")) j = none ∧
      recommend_portfolio (exampleRequest [("firstName", some "Jo")]
        "DialogCodeHook") = Except.error (PyErr.keyError j) :=
  missing_slot_key_raises
    (exampleRequest [("firstName", some "Jo")] "DialogCodeHook")
    "age" (by simp) rfl

end AmazonBot
